import Mathlib

/-!
Verification of the axiomfilter repository: a shallow embedding of the
decode → classify → filter → re-encode pipeline (src/models.py,
src/filters.py, src/config.py, src/axiom_filter.py), together with proofs
about the filter policy, the content rewriter, the dispatch shims and the
statistics aggregator.

JSON parsing and serialisation are external collaborators of the core
(spec §1/§6), so parsed payloads enter the model as `Val` trees (the result
of `json.loads`), and "re-encode and emit" outcomes carry the `Val` that
would be serialised by `json.dumps`.
-/

set_option autoImplicit false
set_option maxRecDepth 8192

/-- A JSON-like runtime value, the image of `json.loads`: Python `None`,
booleans, numbers, strings, lists and string-keyed dicts. Numbers are
collapsed to `Int` (no claim depends on float arithmetic; the decoders'
numeric defaults `0` and `0.0` are both modelled as `num 0`). -/
inductive Val where
  | null : Val
  | bool : Bool → Val
  | num : Int → Val
  | str : String → Val
  | arr : List Val → Val
  | obj : List (String × Val) → Val

/-- Python truthiness (`if x:`) of a JSON-like value: `None`/`False`/`0`/
empty string/empty list/empty dict are falsy, everything else truthy. -/
def Val.truthy : Val → Bool
  | .null => false
  | .bool b => b
  | .num n => n != 0
  | .str s => s != ""
  | .arr xs => !xs.isEmpty
  | .obj kvs => !kvs.isEmpty

/-- First binding of a key in a string-keyed dict (Python dicts have unique
keys; JSON parsing dedupes, so first-match lookup is faithful). -/
def dictFind : List (String × Val) → String → Option Val
  | [], _ => none
  | (k, v) :: rest, key => if k == key then some v else dictFind rest key

/-- Python `data.get(key, default)` on a dict. -/
def dictGet (kvs : List (String × Val)) (key : String) (dflt : Val) : Val :=
  match dictFind kvs key with
  | some v => v
  | none => dflt

/-- `DevWalletFunding` (src/models.py lines 10-18): developer wallet funding
information. The constructors copy raw dict values verbatim, so fields are
`Val`. -/
structure DevWalletFunding where
  wallet_address : Val
  funding_wallet_address : Val
  signature : Val
  amount_sol : Val
  funded_at : Val

/-- `DevWalletFunding.from_ws_array` (src/models.py lines 20-34): `None` on
a falsy argument, field extraction via `.get` on a dict; a truthy non-dict
argument reaches `data.get(...)` and raises `AttributeError`. -/
def DevWalletFunding.from_ws_array (data : Val) : Except String (Option DevWalletFunding) :=
  if data.truthy = false then
    .ok none
  else
    match data with
    | .obj kvs =>
        .ok (some
          { wallet_address := dictGet kvs "walletAddress" (.str "")
            funding_wallet_address := dictGet kvs "fundingWalletAddress" (.str "")
            signature := dictGet kvs "signature" (.str "")
            amount_sol := dictGet kvs "amountSol" (.num 0)
            funded_at := dictGet kvs "fundedAt" (.str "") })
    | _ => .error "AttributeError"

/-- `DevWalletFunding.from_xhr` (src/models.py lines 36-48): identical body
to `from_ws_array` in the source. -/
def DevWalletFunding.from_xhr (data : Val) : Except String (Option DevWalletFunding) :=
  if data.truthy = false then
    .ok none
  else
    match data with
    | .obj kvs =>
        .ok (some
          { wallet_address := dictGet kvs "walletAddress" (.str "")
            funding_wallet_address := dictGet kvs "fundingWalletAddress" (.str "")
            signature := dictGet kvs "signature" (.str "")
            amount_sol := dictGet kvs "amountSol" (.num 0)
            funded_at := dictGet kvs "fundedAt" (.str "") })
    | _ => .error "AttributeError"

/-- `ProtocolDetails` (src/models.py lines 51-66); raw dict values are
copied verbatim, absent keys default to `""` for `creator` and to Python
`None` (`Val.null`) for the optional fields. -/
structure ProtocolDetails where
  creator : Val
  is_token_side_x : Val
  token_program : Val
  pair_sol_account : Val
  pair_token_account : Val
  global_addr : Val
  fee_recipient : Val
  associated_bonding_curve : Val
  event_authority : Val
  is_offchain : Val

/-- `ProtocolDetails.from_dict` (src/models.py lines 68-82). -/
def ProtocolDetails.from_dict (kvs : List (String × Val)) : ProtocolDetails :=
  { creator := dictGet kvs "creator" (.str "")
    is_token_side_x := dictGet kvs "isTokenSideX" .null
    token_program := dictGet kvs "tokenProgram" .null
    pair_sol_account := dictGet kvs "pairSolAccount" .null
    pair_token_account := dictGet kvs "pairTokenAccount" .null
    global_addr := dictGet kvs "global" .null
    fee_recipient := dictGet kvs "feeRecipient" .null
    associated_bonding_curve := dictGet kvs "associatedBondingCurve" .null
    event_authority := dictGet kvs "eventAuthority" .null
    is_offchain := dictGet kvs "isOffchain" .null }

/-- `UpdatePulseItem` (src/models.py lines 85-134): a 43-slot positional
record. Raw slot values are copied verbatim (`Val`); the two decoded nested
objects are `Option` fields. -/
structure UpdatePulseItem where
  pair_address : Val
  token_address : Val
  dev_address : Val
  token_name : Val
  token_ticker : Val
  token_image : Val
  token_decimals : Val
  protocol : Val
  protocol_details : Option ProtocolDetails
  website : Val
  twitter : Val
  telegram : Val
  discord : Val
  top_10_holders_percent : Val
  dev_holds_percent : Val
  snipers_hold_percent : Val
  insiders_hold_percent : Val
  bundlers_hold_percent : Val
  volume_sol : Val
  market_cap_sol : Val
  fees_sol : Val
  liquidity_sol : Val
  liquidity_token : Val
  num_txns : Val
  num_buys : Val
  num_sells : Val
  bonding_curve_percent : Val
  supply : Val
  num_holders : Val
  num_trading_bot_users : Val
  migrated_date : Val
  extra : Val
  field_32 : Val
  migrated_tokens : Val
  first_mint_date : Val
  field_35 : Val
  twitter_handle_history : Val
  field_37 : Val
  dex_paid : Val
  dev_wallet_funding : Option DevWalletFunding
  kol_count : Val
  dev_tokens : Val
  field_42 : Val

/-- `UpdatePulseItem.from_array` (src/models.py lines 136-191). Each slot is
read as `data[i] if len(data) > i else default` = `List.getD`. Slot 8 is
decoded into `ProtocolDetails` only when `isinstance(data[8], dict)` (the
out-of-range default `null` is not a dict, so `getD` subsumes the length
guard); slot 39 is passed to `DevWalletFunding.from_ws_array` whenever it is
truthy (the default `null` is falsy) — with no dict check, so a truthy
non-dict slot propagates `AttributeError`. -/
def UpdatePulseItem.from_array (data : List Val) : Except String UpdatePulseItem :=
  let protocol_details : Option ProtocolDetails :=
    match data.getD 8 Val.null with
    | .obj kvs => some (ProtocolDetails.from_dict kvs)
    | _ => none
  match (if (data.getD 39 Val.null).truthy then
           DevWalletFunding.from_ws_array (data.getD 39 Val.null)
         else .ok none) with
  | .error e => .error e
  | .ok dev_wallet_funding =>
      .ok
        { pair_address := data.getD 0 (.str "")
          token_address := data.getD 1 (.str "")
          dev_address := data.getD 2 (.str "")
          token_name := data.getD 3 (.str "")
          token_ticker := data.getD 4 (.str "")
          token_image := data.getD 5 .null
          token_decimals := data.getD 6 (.num 0)
          protocol := data.getD 7 (.str "")
          protocol_details := protocol_details
          website := data.getD 9 .null
          twitter := data.getD 10 .null
          telegram := data.getD 11 .null
          discord := data.getD 12 .null
          top_10_holders_percent := data.getD 13 (.num 0)
          dev_holds_percent := data.getD 14 (.num 0)
          snipers_hold_percent := data.getD 15 (.num 0)
          insiders_hold_percent := data.getD 16 (.num 0)
          bundlers_hold_percent := data.getD 17 (.num 0)
          volume_sol := data.getD 18 (.num 0)
          market_cap_sol := data.getD 19 (.num 0)
          fees_sol := data.getD 20 (.num 0)
          liquidity_sol := data.getD 21 (.num 0)
          liquidity_token := data.getD 22 (.num 0)
          num_txns := data.getD 23 (.num 0)
          num_buys := data.getD 24 (.num 0)
          num_sells := data.getD 25 (.num 0)
          bonding_curve_percent := data.getD 26 (.num 0)
          supply := data.getD 27 (.num 0)
          num_holders := data.getD 28 (.num 0)
          num_trading_bot_users := data.getD 29 (.num 0)
          migrated_date := data.getD 30 .null
          extra := data.getD 31 .null
          field_32 := data.getD 32 .null
          migrated_tokens := data.getD 33 .null
          first_mint_date := data.getD 34 .null
          field_35 := data.getD 35 .null
          twitter_handle_history := data.getD 36 (.arr [])
          field_37 := data.getD 37 .null
          dex_paid := data.getD 38 (.bool false)
          dev_wallet_funding := dev_wallet_funding
          kol_count := data.getD 40 (.num 0)
          dev_tokens := data.getD 41 .null
          field_42 := data.getD 42 .null }

/-- `XHRPulseResponse` (src/models.py lines 268-310): the keyed-object
sibling of `UpdatePulseItem`. Raw dict values are copied verbatim (`Val`);
only `devWalletFunding` is decoded into a typed nested object. -/
structure XHRPulseResponse where
  pair_address : Val
  token_address : Val
  dev_address : Val
  token_name : Val
  token_ticker : Val
  token_image : Val
  token_decimals : Val
  protocol : Val
  protocol_details : Val
  website : Val
  twitter : Val
  telegram : Val
  discord : Val
  top_10_holders_percent : Val
  dev_holds_percent : Val
  dev_pair_count : Val
  snipers_hold_percent : Val
  insiders_hold_percent : Val
  bundlers_hold_percent : Val
  volume_sol : Val
  market_cap_sol : Val
  fees_sol : Val
  liquidity_sol : Val
  liquidity_token : Val
  bonding_curve_percent : Val
  supply : Val
  num_txns : Val
  num_buys : Val
  num_sells : Val
  num_holders : Val
  num_trading_bot_users : Val
  created_at : Val
  extra : Val
  dex_paid : Val
  migration_count : Val
  twitter_handle_history : Val
  open_trading : Val
  dev_wallet_funding : Option DevWalletFunding
  kol_count : Val

/-- `XHRPulseResponse.from_dict` (src/models.py lines 312-359). The nested
`devWalletFunding` is decoded only when the key is present with a truthy
value — again with no dict check, so a truthy non-dict value propagates
`AttributeError` out of `DevWalletFunding.from_xhr`. A non-dict argument
fails at the first `in`/`.get` with a `TypeError`/`AttributeError`. -/
def XHRPulseResponse.from_dict : Val → Except String XHRPulseResponse
  | .obj kvs =>
      (match (match dictFind kvs "devWalletFunding" with
              | some v => if v.truthy then DevWalletFunding.from_xhr v else .ok none
              | none => .ok none) with
       | .error e => .error e
       | .ok dev_wallet_funding =>
           .ok
             { pair_address := dictGet kvs "pairAddress" (.str "")
               token_address := dictGet kvs "tokenAddress" (.str "")
               dev_address := dictGet kvs "devAddress" (.str "")
               token_name := dictGet kvs "tokenName" (.str "")
               token_ticker := dictGet kvs "tokenTicker" (.str "")
               token_image := dictGet kvs "tokenImage" .null
               token_decimals := dictGet kvs "tokenDecimals" (.num 0)
               protocol := dictGet kvs "protocol" (.str "")
               protocol_details := dictGet kvs "protocolDetails" (.obj [])
               website := dictGet kvs "website" .null
               twitter := dictGet kvs "twitter" .null
               telegram := dictGet kvs "telegram" .null
               discord := dictGet kvs "discord" .null
               top_10_holders_percent := dictGet kvs "top10HoldersPercent" (.num 0)
               dev_holds_percent := dictGet kvs "devHoldsPercent" (.num 0)
               dev_pair_count := dictGet kvs "devPairCount" (.num 0)
               snipers_hold_percent := dictGet kvs "snipersHoldPercent" (.num 0)
               insiders_hold_percent := dictGet kvs "insidersHoldPercent" (.num 0)
               bundlers_hold_percent := dictGet kvs "bundlersHoldPercent" (.num 0)
               volume_sol := dictGet kvs "volumeSol" (.num 0)
               market_cap_sol := dictGet kvs "marketCapSol" (.num 0)
               fees_sol := dictGet kvs "feesSol" (.num 0)
               liquidity_sol := dictGet kvs "liquiditySol" (.num 0)
               liquidity_token := dictGet kvs "liquidityToken" (.num 0)
               bonding_curve_percent := dictGet kvs "bondingCurvePercent" (.num 0)
               supply := dictGet kvs "supply" (.num 0)
               num_txns := dictGet kvs "numTxns" (.num 0)
               num_buys := dictGet kvs "numBuys" (.num 0)
               num_sells := dictGet kvs "numSells" (.num 0)
               num_holders := dictGet kvs "numHolders" (.num 0)
               num_trading_bot_users := dictGet kvs "numTradingBotUsers" (.num 0)
               created_at := dictGet kvs "createdAt" (.str "")
               extra := dictGet kvs "extra" .null
               dex_paid := dictGet kvs "dexPaid" (.bool false)
               migration_count := dictGet kvs "migrationCount" (.num 0)
               twitter_handle_history := dictGet kvs "twitterHandleHistory" (.arr [])
               open_trading := dictGet kvs "openTrading" (.str "")
               dev_wallet_funding := dev_wallet_funding
               kol_count := dictGet kvs "kolCount" (.num 0) })
  | _ => .error "TypeError"

/-- Runtime behaviour of `UpdatePulseItem.from_array` when handed an
arbitrary JSON value by `filter_update_pulse_content` (the Python function
duck-types its `data` argument through `len(data)` and `data[i]`):
a list indexes normally; a string indexes to its one-character substrings;
an empty dict has `len` 0 so every slot defaults; a non-empty string-keyed
dict raises `KeyError` at the first integer index; other types fail
`len()` with a `TypeError`. -/
def decodeItemVal : Val → Except String UpdatePulseItem
  | .arr xs => UpdatePulseItem.from_array xs
  | .str s => UpdatePulseItem.from_array (s.toList.map (fun c => Val.str (String.singleton c)))
  | .obj [] => UpdatePulseItem.from_array []
  | .obj (_ :: _) => .error "KeyError"
  | _ => .error "TypeError"

/-- `FilterConfig` (src/config.py lines 10-55). The Python address sets are
modelled as lists with membership semantics. -/
structure FilterConfig where
  TARGET_HOST : String := "axiom.trade"
  ROOM_NEW_PAIRS : String := "new_pairs"
  ROOM_UPDATE_PULSE : String := "update_pulse_v2"
  BINANCE_ADDRESS : String := "5tzFkiKscXHK5ZXCGbXZxdw7gTjjD1mBwuoFbhUvuAi9"
  KUCOIN_ADDRESS : String := "BmFdpraQhkiDQE6SnfG5omcA1VwzqfXrwtNYBwWTymy6"
  BYBIT_ADDRESS : String := "iGdFcQoyR2MwbXMHQskhmNsqddZ6rinsipHc4TNSdwu"
  MEXC_ADDRESS : String := "ASTyfSima4LLAdDgoFGkgqoKowG1LZFDr9fAQrg7iaJZ"
  DEV_ADDRESSES : List String
  FUNDER_ADDRESSES : List String
  FILTER_BY_DEV_ADDRESS : Bool := false
  FILTER_BY_FUNDING_WALLET : Bool := true
  ENABLE_LOGGING : Bool := false
  VERBOSE_LOGGING : Bool := false

/-- The module-level `config = FilterConfig()` instance (src/config.py line
75): all dataclass defaults, with `__post_init__` (lines 41-55) populating
`DEV_ADDRESSES` with the single placeholder string and `FUNDER_ADDRESSES`
with the KuCoin, MEXC and Bybit addresses. -/
def defaultConfig : FilterConfig :=
  { DEV_ADDRESSES := ["asdsadasdsa"]
    FUNDER_ADDRESSES :=
      [ "BmFdpraQhkiDQE6SnfG5omcA1VwzqfXrwtNYBwWTymy6"
      , "ASTyfSima4LLAdDgoFGkgqoKowG1LZFDr9fAQrg7iaJZ"
      , "iGdFcQoyR2MwbXMHQskhmNsqddZ6rinsipHc4TNSdwu" ] }

/-- Python `value in set_of_strings`: true exactly when the value is a
string equal to a member (a non-string JSON value never equals a Python
`str`). -/
def memberVal (v : Val) (addrs : List String) : Bool :=
  match v with
  | .str s => addrs.contains s
  | _ => false

/-- The two-criterion keep/drop decision shared verbatim by
`should_keep_update_pulse_item` (src/filters.py lines 36-51) and
`should_keep_xhr_response` (src/filters.py lines 78-93), applied to the
decoded record's `dev_address` and `dev_wallet_funding`: dev-address
membership first, then (a present) funding wallet membership, else drop.
A decoded `DevWalletFunding` dataclass instance is always truthy, so
`if item.dev_wallet_funding:` is an `Option.isSome` test. -/
def pulseKeepLogic (cfg : FilterConfig) (devAddr : Val) (dwf : Option DevWalletFunding) : Bool :=
  if cfg.FILTER_BY_DEV_ADDRESS && memberVal devAddr cfg.DEV_ADDRESSES then
    true
  else if cfg.FILTER_BY_FUNDING_WALLET then
    match dwf with
    | some f => memberVal f.funding_wallet_address cfg.FUNDER_ADDRESSES
    | none => false
  else
    false

/-- `MessageFilter.should_keep_update_pulse_item` (src/filters.py lines
23-51): parse the raw item, then apply the two filter criteria; a parse
error propagates. -/
def should_keep_update_pulse_item (cfg : FilterConfig) (item_array : Val) : Except String Bool :=
  match decodeItemVal item_array with
  | .error e => .error e
  | .ok item => .ok (pulseKeepLogic cfg item.dev_address item.dev_wallet_funding)

/-- `MessageFilter.filter_update_pulse_content` (src/filters.py lines
53-63): the list comprehension keeping items whose evaluation is `True`;
an exception from any item propagates. -/
def filter_update_pulse_content (cfg : FilterConfig) : List Val → Except String (List Val)
  | [] => .ok []
  | item :: rest =>
      match should_keep_update_pulse_item cfg item with
      | .error e => .error e
      | .ok b =>
          match filter_update_pulse_content cfg rest with
          | .error e => .error e
          | .ok kept => .ok (if b then item :: kept else kept)

/-- `MessageFilter.should_keep_xhr_response` (src/filters.py lines 65-93):
parse the raw dict, then apply the same two filter criteria. -/
def should_keep_xhr_response (cfg : FilterConfig) (response_dict : Val) : Except String Bool :=
  match XHRPulseResponse.from_dict response_dict with
  | .error e => .error e
  | .ok response => .ok (pulseKeepLogic cfg response.dev_address response.dev_wallet_funding)

/-- `MessageFilter.filter_xhr_responses` (src/filters.py lines 95-107). -/
def filter_xhr_responses (cfg : FilterConfig) : List Val → Except String (List Val)
  | [] => .ok []
  | resp :: rest =>
      match should_keep_xhr_response cfg resp with
      | .error e => .error e
      | .ok b =>
          match filter_xhr_responses cfg rest with
          | .error e => .error e
          | .ok kept => .ok (if b then resp :: kept else kept)

/-- `MessageFilter.should_keep_new_pair` (src/filters.py lines 109-129):
the body is `return True` for every content value. -/
def should_keep_new_pair (_cfg : FilterConfig) (_content : Val) : Bool :=
  true

/-- `FilterStats` (src/filters.py lines 132-141): six running counters.
Python integers are unbounded, so the counters are `Int`. -/
structure FilterStats where
  total_update_pulse_items : Int
  filtered_update_pulse_items : Int
  total_xhr_responses : Int
  filtered_xhr_responses : Int
  total_new_pairs : Int
  filtered_new_pairs : Int

/-- `FilterStats.__init__` (src/filters.py lines 135-141): all six counters
start at zero. -/
def FilterStats.initial : FilterStats :=
  { total_update_pulse_items := 0
    filtered_update_pulse_items := 0
    total_xhr_responses := 0
    filtered_xhr_responses := 0
    total_new_pairs := 0
    filtered_new_pairs := 0 }

/-- `FilterStats.record_update_pulse` (src/filters.py lines 143-146). -/
def FilterStats.record_update_pulse (s : FilterStats) (total filtered : Int) : FilterStats :=
  { s with
    total_update_pulse_items := s.total_update_pulse_items + total
    filtered_update_pulse_items := s.filtered_update_pulse_items + filtered }

/-- `FilterStats.record_xhr` (src/filters.py lines 148-151). -/
def FilterStats.record_xhr (s : FilterStats) (total filtered : Int) : FilterStats :=
  { s with
    total_xhr_responses := s.total_xhr_responses + total
    filtered_xhr_responses := s.filtered_xhr_responses + filtered }

/-- `FilterStats.record_new_pair` (src/filters.py lines 153-157). -/
def FilterStats.record_new_pair (s : FilterStats) (kept : Bool) : FilterStats :=
  { s with
    total_new_pairs := s.total_new_pairs + 1
    filtered_new_pairs := s.filtered_new_pairs + (if kept then 1 else 0) }

/-- `FilterStats.reset` (src/filters.py lines 169-176): zero all six
counters. -/
def FilterStats.reset (_s : FilterStats) : FilterStats :=
  { total_update_pulse_items := 0
    filtered_update_pulse_items := 0
    total_xhr_responses := 0
    filtered_xhr_responses := 0
    total_new_pairs := 0
    filtered_new_pairs := 0 }

/-- One call to a Stats Aggregator record method, with its arguments. -/
inductive StatsCall where
  | update_pulse (total filtered : Int)
  | xhr (total filtered : Int)
  | new_pair (kept : Bool)

/-- Apply one record call to the stats state. -/
def applyStatsCall (s : FilterStats) : StatsCall → FilterStats
  | .update_pulse total filtered => s.record_update_pulse total filtered
  | .xhr total filtered => s.record_xhr total filtered
  | .new_pair kept => s.record_new_pair kept

/-- Apply a sequence of record calls in order. -/
def applyStatsCalls (s : FilterStats) : List StatsCall → FilterStats
  | [] => s
  | c :: rest => applyStatsCalls (applyStatsCall s c) rest

/-- A record call whose arguments are consistent counts, `0 ≤ kept ≤ total`
(this is how the pipeline invokes the aggregator: `record_update_pulse` and
`record_xhr` receive a list length and the length of a filtered sublist,
`record_new_pair` supplies its own counts). -/
def StatsCall.wellFormed : StatsCall → Bool
  | .update_pulse total filtered => 0 ≤ filtered && filtered ≤ total
  | .xhr total filtered => 0 ≤ filtered && filtered ≤ total
  | .new_pair _ => true

/-- The per-category counter invariant of spec §8: each kept counter is
between zero and its total counter. -/
def statsInvariant (s : FilterStats) : Prop :=
  (0 ≤ s.filtered_update_pulse_items ∧ s.filtered_update_pulse_items ≤ s.total_update_pulse_items)
  ∧ (0 ≤ s.filtered_xhr_responses ∧ s.filtered_xhr_responses ≤ s.total_xhr_responses)
  ∧ (0 ≤ s.filtered_new_pairs ∧ s.filtered_new_pairs ≤ s.total_new_pairs)

/-- Does `needle` stand at the front of `hay`? (Bool helper for the Python
`in` operator on strings.) -/
def leadsWith : List Char → List Char → Bool
  | [], _ => true
  | _ :: _, [] => false
  | a :: as, b :: bs => a == b && leadsWith as bs

/-- Python `needle in hay` for strings, over character lists: `needle`
occurs contiguously somewhere in `hay`. -/
def occursWithin (needle : List Char) : List Char → Bool
  | [] => needle.isEmpty
  | c :: rest => leadsWith needle (c :: rest) || occursWithin needle rest

/-- Python `text.lower()[:50]`, as a character list: the first 50
characters of the lower-cased text. -/
def lower50 (text : String) : List Char :=
  (text.toList.map Char.toLower).take 50

/-- `AxiomTradeFilter._get_room_name` (src/axiom_filter.py lines 87-105):
search the first 50 characters of the lower-cased text for the new-pairs
room tag, then for the update-pulse room tag (Python `tag in text_start`
is contiguous-substring occurrence). -/
def get_room_name (cfg : FilterConfig) (text : String) : Option String :=
  let text_start := lower50 text
  if occursWithin cfg.ROOM_NEW_PAIRS.toList text_start then some cfg.ROOM_NEW_PAIRS
  else if occursWithin cfg.ROOM_UPDATE_PULSE.toList text_start then some cfg.ROOM_UPDATE_PULSE
  else none

/-- Net effect of a WebSocket hook invocation on the intercepted message:
leave it as is, suppress it (`message.drop()`), or replace its text with
the serialisation of a JSON value (`message.text = json.dumps(data)`). -/
inductive WsOutcome where
  | unchanged : WsOutcome
  | drop : WsOutcome
  | replaceData : Val → WsOutcome

/-- The inputs of one `websocket_message` invocation, at the boundary of the
excluded transport layer: the host predicate `_is_target_host`, presence of
a last message, its direction and frame kind, the decoded payload text and
the result of `json.loads` on it (`none` = `JSONDecodeError`). -/
structure WsMsgInput where
  isTargetHost : Bool
  hasMessages : Bool
  fromClient : Bool
  isText : Bool
  text : String
  parsed : Option Val

/-- Python `data["content"] = filtered` on a dict that already holds the
key: replace the value at the (unique, hence first) binding. -/
def dictSet : List (String × Val) → String → Val → List (String × Val)
  | [], _, _ => []
  | (k, v) :: rest, key, newV =>
      if k == key then (k, newV) :: rest else (k, v) :: dictSet rest key newV

/-- `AxiomTradeFilter._filter_update_pulse_message` (src/axiom_filter.py
lines 107-155): on unparseable JSON, a payload without a list-valued
`content` key, or an exception while filtering, the message is left
unmodified (all exceptions are caught); on an empty filtered list the
message is dropped; otherwise the envelope's `content` is replaced with
the kept items and the message text is rewritten — but only when the frame
is a text frame (`if message.is_text:`). A non-dict payload always falls in
the unmodified case (its `in`/indexing either fails the guard or raises a
`TypeError` that the handler catches). -/
def filterUpdatePulseMessage (cfg : FilterConfig) (m : WsMsgInput) : WsOutcome :=
  match m.parsed with
  | none => .unchanged
  | some data =>
      match data with
      | .obj kvs =>
          match dictFind kvs "content" with
          | some (.arr items) =>
              (match filter_update_pulse_content cfg items with
               | .error _ => .unchanged
               | .ok kept =>
                   if kept.isEmpty then .drop
                   else if m.isText then .replaceData (.obj (dictSet kvs "content" (.arr kept)))
                   else .unchanged)
          | _ => .unchanged
      | _ => .unchanged

/-- `AxiomTradeFilter.websocket_message` (src/axiom_filter.py lines
192-223): host check, message-presence check, direction check, room
classification, and dispatch. The new-pairs branch runs
`_filter_new_pairs_message` — which never mutates the message, since
`should_keep_new_pair` is constantly true — and then calls
`message.drop()` unconditionally (line 223), so its net effect is always
a drop. -/
def websocket_message (cfg : FilterConfig) (m : WsMsgInput) : WsOutcome :=
  if m.isTargetHost = false then .unchanged
  else if m.hasMessages = false then .unchanged
  else if m.fromClient then .unchanged
  else
    match get_room_name cfg m.text with
    | some room =>
        if room == cfg.ROOM_UPDATE_PULSE then filterUpdatePulseMessage cfg m
        else if room == cfg.ROOM_NEW_PAIRS then .drop
        else .unchanged
    | none => .unchanged

/-- Net effect of one `response` hook invocation on the HTTP response:
leave it as is, or replace its body with the serialisation of a JSON value
(`flow.response.content = json.dumps(v).encode()`). The hook has no path
that suppresses or kills the response; `suppressed` exists only so that
this impossibility is statable. -/
inductive HttpOutcome where
  | unchanged : HttpOutcome
  | setContent : Val → HttpOutcome
  | suppressed : HttpOutcome

/-- The inputs of one `response` hook invocation: request path and method,
the host predicate, and the result of `json.loads` on the response body
(`none` = `JSONDecodeError`). -/
structure HttpInput where
  path : String
  method : String
  isTargetHost : Bool
  parsed : Option Val

/-- `AxiomTradeFilter.response` (src/axiom_filter.py lines 225-278): only
POST requests to `/pulse` from the target host are processed; a list body
is rewritten to its filtered sublist; a dict body is kept as is or replaced
by the empty JSON object; anything else (parse failure, other JSON types,
an exception while filtering) leaves the response unmodified. -/
def response_hook (cfg : FilterConfig) (r : HttpInput) : HttpOutcome :=
  if r.path != "/pulse" || r.method != "POST" then .unchanged
  else if r.isTargetHost = false then .unchanged
  else
    match r.parsed with
    | none => .unchanged
    | some content =>
        match content with
        | .arr items =>
            (match filter_xhr_responses cfg items with
             | .error _ => .unchanged
             | .ok kept => .setContent (.arr kept))
        | .obj kvs =>
            (match should_keep_xhr_response cfg (.obj kvs) with
             | .error _ => .unchanged
             | .ok true => .unchanged
             | .ok false => .setContent (.obj []))
        | _ => .unchanged

/-- Spec-side membership of a runtime value in an address set: the value is
a string belonging to the set. -/
def ValMem (v : Val) (addrs : List String) : Prop :=
  ∃ s, s ∈ addrs ∧ v = Val.str s

theorem memberVal_iff (v : Val) (addrs : List String) :
    memberVal v addrs = true ↔ ValMem v addrs := by
  cases v <;> simp [memberVal, ValMem]

/-- The keep condition of spec §4.2, stated declaratively over a record's
dev address and optional funding record: the dev-address criterion is
enabled and matches, or the funding-wallet criterion is enabled and a
present funding record's wallet address matches. -/
def KeepSpec (cfg : FilterConfig) (devAddr : Val) (dwf : Option DevWalletFunding) : Prop :=
  (cfg.FILTER_BY_DEV_ADDRESS = true ∧ ValMem devAddr cfg.DEV_ADDRESSES)
  ∨ (cfg.FILTER_BY_FUNDING_WALLET = true
      ∧ ∃ f, dwf = some f ∧ ValMem f.funding_wallet_address cfg.FUNDER_ADDRESSES)

theorem pulseKeepLogic_eq (cfg : FilterConfig) (devAddr : Val) (dwf : Option DevWalletFunding) :
    pulseKeepLogic cfg devAddr dwf =
      (cfg.FILTER_BY_DEV_ADDRESS && memberVal devAddr cfg.DEV_ADDRESSES
        || cfg.FILTER_BY_FUNDING_WALLET &&
            match dwf with
            | some f => memberVal f.funding_wallet_address cfg.FUNDER_ADDRESSES
            | none => false) := by
  unfold pulseKeepLogic
  cases cfg.FILTER_BY_DEV_ADDRESS && memberVal devAddr cfg.DEV_ADDRESSES <;>
    cases cfg.FILTER_BY_FUNDING_WALLET <;>
      cases dwf <;> simp

theorem pulseKeepLogic_iff (cfg : FilterConfig) (devAddr : Val) (dwf : Option DevWalletFunding) :
    pulseKeepLogic cfg devAddr dwf = true ↔ KeepSpec cfg devAddr dwf := by
  rw [pulseKeepLogic_eq]
  cases dwf <;>
    simp [KeepSpec, Bool.or_eq_true, Bool.and_eq_true, memberVal_iff]

/-- The record decoded from an empty positional array: every field at its
documented default. -/
def emptyPulseItem : UpdatePulseItem :=
  { pair_address := .str ""
    token_address := .str ""
    dev_address := .str ""
    token_name := .str ""
    token_ticker := .str ""
    token_image := .null
    token_decimals := .num 0
    protocol := .str ""
    protocol_details := none
    website := .null
    twitter := .null
    telegram := .null
    discord := .null
    top_10_holders_percent := .num 0
    dev_holds_percent := .num 0
    snipers_hold_percent := .num 0
    insiders_hold_percent := .num 0
    bundlers_hold_percent := .num 0
    volume_sol := .num 0
    market_cap_sol := .num 0
    fees_sol := .num 0
    liquidity_sol := .num 0
    liquidity_token := .num 0
    num_txns := .num 0
    num_buys := .num 0
    num_sells := .num 0
    bonding_curve_percent := .num 0
    supply := .num 0
    num_holders := .num 0
    num_trading_bot_users := .num 0
    migrated_date := .null
    extra := .null
    field_32 := .null
    migrated_tokens := .null
    first_mint_date := .null
    field_35 := .null
    twitter_handle_history := .arr []
    field_37 := .null
    dex_paid := .bool false
    dev_wallet_funding := none
    kol_count := .num 0
    dev_tokens := .null
    field_42 := .null }

/-- The record decoded from an empty dict: every field at its documented
default. -/
def emptyXhrResponse : XHRPulseResponse :=
  { pair_address := .str ""
    token_address := .str ""
    dev_address := .str ""
    token_name := .str ""
    token_ticker := .str ""
    token_image := .null
    token_decimals := .num 0
    protocol := .str ""
    protocol_details := .obj []
    website := .null
    twitter := .null
    telegram := .null
    discord := .null
    top_10_holders_percent := .num 0
    dev_holds_percent := .num 0
    dev_pair_count := .num 0
    snipers_hold_percent := .num 0
    insiders_hold_percent := .num 0
    bundlers_hold_percent := .num 0
    volume_sol := .num 0
    market_cap_sol := .num 0
    fees_sol := .num 0
    liquidity_sol := .num 0
    liquidity_token := .num 0
    bonding_curve_percent := .num 0
    supply := .num 0
    num_txns := .num 0
    num_buys := .num 0
    num_sells := .num 0
    num_holders := .num 0
    num_trading_bot_users := .num 0
    created_at := .str ""
    extra := .null
    dex_paid := .bool false
    migration_count := .num 0
    twitter_handle_history := .arr []
    open_trading := .str ""
    dev_wallet_funding := none
    kol_count := .num 0 }

/-- Claim C1: for every pulse-update item and XHR pulse record (over every
raw input that decodes) and every configuration, the evaluator returns keep
exactly when the dev-address criterion is enabled and the record's
dev_address is a member of dev_addresses, or the funding-wallet criterion
is enabled and the record carries a present dev_wallet_funding whose
funding_wallet_address is a member of funder_addresses; in particular both
criteria disabled make both disjuncts false, so every record is dropped.
(The dev-address test precedes the funding-wallet test in
`pulseKeepLogic`, mirroring the source order.) -/
theorem C1_evaluator_keep_iff (cfg : FilterConfig) (xs : List Val)
    (kvs : List (String × Val)) (item : UpdatePulseItem) (resp : XHRPulseResponse)
    (h1 : UpdatePulseItem.from_array xs = .ok item)
    (h2 : XHRPulseResponse.from_dict (.obj kvs) = .ok resp) :
    (should_keep_update_pulse_item cfg (.arr xs) = .ok true
        ↔ KeepSpec cfg item.dev_address item.dev_wallet_funding)
    ∧ (should_keep_xhr_response cfg (.obj kvs) = .ok true
        ↔ KeepSpec cfg resp.dev_address resp.dev_wallet_funding) := by
  constructor
  · simp [should_keep_update_pulse_item, decodeItemVal, h1, pulseKeepLogic_iff]
  · simp [should_keep_xhr_response, h2, pulseKeepLogic_iff]

/-- Witness for C1 at the empty array and empty dict under the default
configuration. -/
theorem C1_evaluator_keep_iff_witness :
    (should_keep_update_pulse_item defaultConfig (.arr []) = .ok true
        ↔ KeepSpec defaultConfig emptyPulseItem.dev_address emptyPulseItem.dev_wallet_funding)
    ∧ (should_keep_xhr_response defaultConfig (.obj []) = .ok true
        ↔ KeepSpec defaultConfig emptyXhrResponse.dev_address emptyXhrResponse.dev_wallet_funding) :=
  C1_evaluator_keep_iff defaultConfig [] [] emptyPulseItem emptyXhrResponse rfl rfl

/-- Boolean form of "the evaluator returned keep" for a pulse item. -/
def keepOkPulse (cfg : FilterConfig) (v : Val) : Bool :=
  match should_keep_update_pulse_item cfg v with
  | .ok true => true
  | _ => false

/-- Boolean form of "the evaluator returned keep" for an XHR response. -/
def keepOkXhr (cfg : FilterConfig) (v : Val) : Bool :=
  match should_keep_xhr_response cfg v with
  | .ok true => true
  | _ => false

theorem keepOkPulse_eq_true (cfg : FilterConfig) (v : Val) :
    keepOkPulse cfg v = true ↔ should_keep_update_pulse_item cfg v = .ok true := by
  unfold keepOkPulse
  cases h : should_keep_update_pulse_item cfg v with
  | error e => simp
  | ok b => cases b <;> simp

theorem keepOkXhr_eq_true (cfg : FilterConfig) (v : Val) :
    keepOkXhr cfg v = true ↔ should_keep_xhr_response cfg v = .ok true := by
  unfold keepOkXhr
  cases h : should_keep_xhr_response cfg v with
  | error e => simp
  | ok b => cases b <;> simp

theorem filter_update_pulse_content_ok (cfg : FilterConfig) (items kept : List Val)
    (h : filter_update_pulse_content cfg items = .ok kept) :
    kept = items.filter (keepOkPulse cfg) := by
  induction items generalizing kept with
  | nil =>
      simp only [filter_update_pulse_content, Except.ok.injEq] at h
      simp [← h]
  | cons x rest ih =>
      revert h
      simp only [filter_update_pulse_content]
      cases hx : should_keep_update_pulse_item cfg x with
      | error e => intro h; cases h
      | ok b =>
          cases hr : filter_update_pulse_content cfg rest with
          | error e => intro h; cases h
          | ok kr =>
              intro h
              simp only [Except.ok.injEq] at h
              have hb : keepOkPulse cfg x = b := by
                unfold keepOkPulse
                rw [hx]
                cases b <;> rfl
              cases b <;> simp [← h, List.filter, hb, ih kr hr]

theorem filter_xhr_responses_ok (cfg : FilterConfig) (items kept : List Val)
    (h : filter_xhr_responses cfg items = .ok kept) :
    kept = items.filter (keepOkXhr cfg) := by
  induction items generalizing kept with
  | nil =>
      simp only [filter_xhr_responses, Except.ok.injEq] at h
      simp [← h]
  | cons x rest ih =>
      revert h
      simp only [filter_xhr_responses]
      cases hx : should_keep_xhr_response cfg x with
      | error e => intro h; cases h
      | ok b =>
          cases hr : filter_xhr_responses cfg rest with
          | error e => intro h; cases h
          | ok kr =>
              intro h
              simp only [Except.ok.injEq] at h
              have hb : keepOkXhr cfg x = b := by
                unfold keepOkXhr
                rw [hx]
                cases b <;> rfl
              cases b <;> simp [← h, List.filter, hb, ih kr hr]

/-- Claim C5: for every composite envelope content list and configuration,
the rewritten content is exactly the subsequence of input items on which
the evaluator returns keep, in input order; hence it is a sublist, its
length is bounded by the input length, and every kept element individually
evaluates to keep. Stated for both the WebSocket rewriter
(`filter_update_pulse_content`) and the XHR rewriter
(`filter_xhr_responses`). -/
theorem C5_rewriter_exact_subsequence (cfg : FilterConfig)
    (items resps kept keptX : List Val)
    (h1 : filter_update_pulse_content cfg items = .ok kept)
    (h2 : filter_xhr_responses cfg resps = .ok keptX) :
    (kept = items.filter (keepOkPulse cfg)
      ∧ List.Sublist kept items
      ∧ kept.length ≤ items.length
      ∧ ∀ v ∈ kept, should_keep_update_pulse_item cfg v = .ok true)
    ∧ (keptX = resps.filter (keepOkXhr cfg)
      ∧ List.Sublist keptX resps
      ∧ keptX.length ≤ resps.length
      ∧ ∀ v ∈ keptX, should_keep_xhr_response cfg v = .ok true) := by
  have e1 := filter_update_pulse_content_ok cfg items kept h1
  have e2 := filter_xhr_responses_ok cfg resps keptX h2
  subst e1
  subst e2
  refine ⟨⟨rfl, List.filter_sublist items, List.length_filter_le _ items, ?_⟩,
          ⟨rfl, List.filter_sublist resps, List.length_filter_le _ resps, ?_⟩⟩
  · intro v hv
    have := List.of_mem_filter hv
    exact (keepOkPulse_eq_true cfg v).mp this
  · intro v hv
    have := List.of_mem_filter hv
    exact (keepOkXhr_eq_true cfg v).mp this

/-- A funding record whose funding wallet is the configured KuCoin address. -/
def fundingKucoin : Val :=
  .obj [("fundingWalletAddress", .str "BmFdpraQhkiDQE6SnfG5omcA1VwzqfXrwtNYBwWTymy6")]

/-- A 40-slot pulse item whose slot 39 carries `fundingKucoin`; it passes
the default funding-wallet filter. -/
def goodItemArr : Val :=
  .arr (List.replicate 39 Val.null ++ [fundingKucoin])

/-- An XHR pulse record carrying `fundingKucoin`; it passes the default
funding-wallet filter. -/
def goodRespObj : Val :=
  .obj [("devWalletFunding", fundingKucoin)]

/-- Witness for C5: under the default configuration, a two-item envelope
keeps exactly its matching first item, for both rewriters. -/
theorem C5_rewriter_exact_subsequence_witness :
    ([goodItemArr] = [goodItemArr, Val.arr []].filter (keepOkPulse defaultConfig)
      ∧ List.Sublist [goodItemArr] [goodItemArr, Val.arr []]
      ∧ [goodItemArr].length ≤ [goodItemArr, Val.arr []].length
      ∧ ∀ v ∈ [goodItemArr], should_keep_update_pulse_item defaultConfig v = .ok true)
    ∧ ([goodRespObj] = [goodRespObj, Val.obj []].filter (keepOkXhr defaultConfig)
      ∧ List.Sublist [goodRespObj] [goodRespObj, Val.obj []]
      ∧ [goodRespObj].length ≤ [goodRespObj, Val.obj []].length
      ∧ ∀ v ∈ [goodRespObj], should_keep_xhr_response defaultConfig v = .ok true) :=
  C5_rewriter_exact_subsequence defaultConfig
    [goodItemArr, Val.arr []] [goodRespObj, Val.obj []]
    [goodItemArr] [goodRespObj] rfl rfl

theorem dictFind_dictSet_self (kvs : List (String × Val)) (key : String) (w v : Val)
    (h : dictFind kvs key = some w) :
    dictFind (dictSet kvs key v) key = some v := by
  induction kvs with
  | nil => cases h
  | cons kv rest ih =>
      obtain ⟨k, u⟩ := kv
      by_cases hk : k = key
      · subst hk
        simp [dictSet, dictFind]
      · simp only [dictSet, dictFind, beq_iff_eq, if_neg hk] at h ⊢
        exact ih h

theorem dictFind_dictSet_ne (kvs : List (String × Val)) (key other : String) (v : Val)
    (h : other ≠ key) :
    dictFind (dictSet kvs key v) other = dictFind kvs other := by
  induction kvs with
  | nil => rfl
  | cons kv rest ih =>
      obtain ⟨k, u⟩ := kv
      by_cases hk : k = key
      · subst hk
        have : ¬ (k == other) = true := by
          simp [beq_iff_eq]
          exact fun e => h e.symm
        simp [dictSet, dictFind, this]
      · simp only [dictSet, beq_iff_eq, if_neg hk]
        simp only [dictFind]
        by_cases ho : k = other
        · simp [ho]
        · simp [ho, ih]

/-- Claim C6: for an update_pulse_v2 envelope (target-host text frame,
server to client, parsed to a dict with a list-valued `content`, whose
filtering succeeds), an empty kept list suppresses the whole message, and
a non-empty kept list re-emits the envelope with only `content` replaced:
the rewritten dict holds the kept list under `content` and agrees with the
original on every other key. -/
theorem C6_envelope_rewrite (cfg : FilterConfig) (m : WsMsgInput)
    (kvs : List (String × Val)) (items kept : List Val)
    (hT : m.isTargetHost = true) (hM : m.hasMessages = true)
    (hC : m.fromClient = false) (hX : m.isText = true)
    (hP : m.parsed = some (.obj kvs))
    (hR : get_room_name cfg m.text = some cfg.ROOM_UPDATE_PULSE)
    (hK : dictFind kvs "content" = some (.arr items))
    (hF : filter_update_pulse_content cfg items = .ok kept) :
    (kept = [] → websocket_message cfg m = .drop)
    ∧ (kept ≠ [] →
        websocket_message cfg m = .replaceData (.obj (dictSet kvs "content" (.arr kept)))
        ∧ dictFind (dictSet kvs "content" (.arr kept)) "content" = some (.arr kept)
        ∧ ∀ k, k ≠ "content" →
            dictFind (dictSet kvs "content" (.arr kept)) k = dictFind kvs k) := by
  have hmsg : websocket_message cfg m = filterUpdatePulseMessage cfg m := by
    unfold websocket_message
    rw [hT, hM, hC, hR]
    simp
  have hfil :
      filterUpdatePulseMessage cfg m =
        (if kept.isEmpty then WsOutcome.drop
         else .replaceData (.obj (dictSet kvs "content" (.arr kept)))) := by
    unfold filterUpdatePulseMessage
    simp only [hP, hK, hF]
    by_cases hke : kept.isEmpty
    · simp [hke]
    · simp [hke, hX]
  constructor
  · intro hnil
    subst hnil
    rw [hmsg, hfil]
    rfl
  · intro hne
    have hke : kept.isEmpty = false := by
      cases kept with
      | nil => exact absurd rfl hne
      | cons a t => rfl
    refine ⟨?_, dictFind_dictSet_self kvs "content" (.arr items) (.arr kept) hK, ?_⟩
    · rw [hmsg, hfil, hke]
      simp
    · intro k hk
      exact dictFind_dictSet_ne kvs "content" k (.arr kept) hk

/-- The envelope dict of the C6 witness message. -/
def c6kvs : List (String × Val) :=
  [("room", .str "update_pulse_v2"), ("content", .arr [goodItemArr, Val.arr []])]

/-- The C6 witness message: a target-host server-to-client text frame whose
payload is an update_pulse_v2 envelope with one matching and one
non-matching item. -/
def c6msg : WsMsgInput :=
  { isTargetHost := true
    hasMessages := true
    fromClient := false
    isText := true
    text := "update_pulse_v2"
    parsed := some (.obj c6kvs) }

/-- Witness for C6: the concrete envelope is re-emitted with `content`
replaced by the kept sublist while the `room` key passes through. -/
theorem C6_envelope_rewrite_witness :
    websocket_message defaultConfig c6msg
        = .replaceData (.obj (dictSet c6kvs "content" (.arr [goodItemArr])))
    ∧ dictFind (dictSet c6kvs "content" (.arr [goodItemArr])) "room" = dictFind c6kvs "room" :=
  have h := (C6_envelope_rewrite defaultConfig c6msg c6kvs [goodItemArr, Val.arr []]
    [goodItemArr] rfl rfl rfl rfl rfl (by rfl) rfl rfl).2 (List.cons_ne_nil _ _)
  ⟨h.1, h.2.2 "room" (by decide)⟩

/-- Claim C7: for a singleton (single JSON object) XHR /pulse response on
which the evaluator terminates, a drop decision replaces the body with the
empty JSON object, a keep decision leaves the body unchanged, and in no
case is the HTTP response suppressed outright. -/
theorem C7_singleton_xhr_empty_object (cfg : FilterConfig)
    (kvs : List (String × Val)) (b : Bool)
    (h : should_keep_xhr_response cfg (.obj kvs) = .ok b) :
    (b = false →
        response_hook cfg ⟨"/pulse", "POST", true, some (.obj kvs)⟩
          = .setContent (.obj []))
    ∧ (b = true →
        response_hook cfg ⟨"/pulse", "POST", true, some (.obj kvs)⟩
          = .unchanged)
    ∧ response_hook cfg ⟨"/pulse", "POST", true, some (.obj kvs)⟩
        ≠ .suppressed := by
  have hr : response_hook cfg ⟨"/pulse", "POST", true, some (.obj kvs)⟩
      = (if b then .unchanged else .setContent (.obj [])) := by
    unfold response_hook
    simp only [h]
    cases b <;> simp
  cases b <;> simp [hr]

/-- Witness for C7: the empty singleton object is dropped under the default
configuration, so the body becomes the empty JSON object. -/
theorem C7_singleton_xhr_empty_object_witness :
    response_hook defaultConfig ⟨"/pulse", "POST", true, some (.obj [])⟩
      = .setContent (.obj []) :=
  (C7_singleton_xhr_empty_object defaultConfig [] false rfl).1 rfl

/-- Claim C8 fails as stated: a single `record_update_pulse(0, 1)` call —
the aggregator adds its arguments unconditionally — leaves the
update-pulse kept counter above its total counter. -/
theorem C8_counterexample :
    ¬ ((applyStatsCalls FilterStats.initial [StatsCall.update_pulse 0 1]).filtered_update_pulse_items
        ≤ (applyStatsCalls FilterStats.initial [StatsCall.update_pulse 0 1]).total_update_pulse_items) := by
  decide

theorem statsInvariant_step (s : FilterStats) (c : StatsCall)
    (hs : statsInvariant s) (hc : c.wellFormed = true) :
    statsInvariant (applyStatsCall s c) := by
  obtain ⟨⟨h1, h2⟩, ⟨h3, h4⟩, ⟨h5, h6⟩⟩ := hs
  cases c with
  | update_pulse total filtered =>
      simp only [StatsCall.wellFormed, Bool.and_eq_true, decide_eq_true_eq] at hc
      obtain ⟨hc1, hc2⟩ := hc
      refine ⟨⟨?_, ?_⟩, ⟨h3, h4⟩, ⟨h5, h6⟩⟩ <;>
        simp only [applyStatsCall, FilterStats.record_update_pulse] <;> omega
  | xhr total filtered =>
      simp only [StatsCall.wellFormed, Bool.and_eq_true, decide_eq_true_eq] at hc
      obtain ⟨hc1, hc2⟩ := hc
      refine ⟨⟨h1, h2⟩, ⟨?_, ?_⟩, ⟨h5, h6⟩⟩ <;>
        simp only [applyStatsCall, FilterStats.record_xhr] <;> omega
  | new_pair kept =>
      refine ⟨⟨h1, h2⟩, ⟨h3, h4⟩, ⟨?_, ?_⟩⟩ <;>
        simp only [applyStatsCall, FilterStats.record_new_pair] <;>
          cases kept <;> simp <;> omega

theorem applyStatsCalls_invariant (calls : List StatsCall) :
    ∀ s : FilterStats, statsInvariant s → (∀ c ∈ calls, c.wellFormed = true) →
      statsInvariant (applyStatsCalls s calls) := by
  induction calls with
  | nil => intro s hs _; exact hs
  | cons c rest ih =>
      intro s hs hw
      have hc : c.wellFormed = true := hw c (List.mem_cons_self c rest)
      have hr : ∀ d ∈ rest, d.wellFormed = true :=
        fun d hd => hw d (List.mem_cons_of_mem c hd)
      exact ih (applyStatsCall s c) (statsInvariant_step s c hs hc) hr

/-- Claim C8, amended: after any sequence of record calls starting from a
fresh (or reset — resetting yields the fresh state) aggregator, in which
every `record_update_pulse`/`record_xhr` call receives consistent counts
`0 ≤ kept ≤ total` (as at every call site of the pipeline), each category's
counters satisfy `0 ≤ kept_sum ≤ total_sum`. -/
theorem C8_stats_invariant (calls : List StatsCall)
    (h : ∀ c ∈ calls, c.wellFormed = true) :
    statsInvariant (applyStatsCalls FilterStats.initial calls)
    ∧ ∀ s : FilterStats, FilterStats.reset s = FilterStats.initial := by
  constructor
  · refine applyStatsCalls_invariant calls FilterStats.initial ?_ h
    refine ⟨⟨?_, ?_⟩, ⟨?_, ?_⟩, ⟨?_, ?_⟩⟩ <;> decide
  · intro s
    rfl

/-- Witness for C8 at a concrete well-formed call sequence. -/
theorem C8_stats_invariant_witness :
    statsInvariant (applyStatsCalls FilterStats.initial
      [StatsCall.update_pulse 2 1, StatsCall.xhr 1 0, StatsCall.new_pair true]) :=
  (C8_stats_invariant
    [StatsCall.update_pulse 2 1, StatsCall.xhr 1 0, StatsCall.new_pair true]
    (by decide)).1

/-- A 40-slot array whose slot 39 is the (truthy, non-dict) number 5. -/
def c2BadArr : List Val :=
  List.replicate 39 Val.null ++ [Val.num 5]

/-- Claim C2 fails on the code: a truthy non-dict in the DevWalletFunding
slot/key makes the enclosing decode raise (`AttributeError` from
`data.get` on a non-dict) instead of decoding the nested field to absent —
for both the positional decoder (slot 39) and the keyed decoder
(`devWalletFunding`). (The ProtocolDetails slot 8 is guarded by an
`isinstance` check; slot 39 and the `devWalletFunding` key are not.) -/
theorem C2_nested_mismatch_raises :
    c2BadArr.length = 40
    ∧ UpdatePulseItem.from_array c2BadArr = .error "AttributeError"
    ∧ XHRPulseResponse.from_dict (.obj [("devWalletFunding", Val.num 5)])
        = .error "AttributeError" :=
  ⟨rfl, rfl, rfl⟩

/-- A 43-slot array whose slot 39 is the (truthy, non-dict) string "x". -/
def c4BadArr : List Val :=
  List.replicate 39 Val.null ++ [Val.str "x", Val.null, Val.null, Val.null]

/-- Claim C4 fails on the code: this list has length 43 ≤ 43, yet
`UpdatePulseItem.from_array` raises on it (`AttributeError` from
`"x".get(...)` in `DevWalletFunding.from_ws_array`), because slot 39 is
passed to the nested decoder whenever it is truthy, with no dict check. -/
theorem C4_length43_decode_raises :
    c4BadArr.length = 43
    ∧ UpdatePulseItem.from_array c4BadArr = .error "AttributeError" :=
  ⟨rfl, rfl⟩

/-- The C3 failing input: a target-host server-to-client text frame whose
payload carries the new_pairs room tag. -/
def c3NewPairsMsg : WsMsgInput :=
  { isTargetHost := true
    hasMessages := true
    fromClient := false
    isText := true
    text := "new_pairs"
    parsed := some (.obj [("room", .str "new_pairs"),
                          ("content", .obj [("token_name", .str "tok")])]) }

/-- Claim C3 fails on the code: the filter policy keeps every new_pairs
content (first conjunct), yet the dispatch drops the message —
`websocket_message` calls `message.drop()` unconditionally after
`_filter_new_pairs_message` (src/axiom_filter.py line 223), so the net
outcome for a new_pairs message is suppression, never re-emission. -/
theorem C3_new_pairs_always_dropped :
    (∀ (cfg : FilterConfig) (content : Val), should_keep_new_pair cfg content = true)
    ∧ websocket_message defaultConfig c3NewPairsMsg = WsOutcome.drop :=
  ⟨fun _ _ => rfl, by rfl⟩

/-- Declarative contiguous-substring occurrence (spec side of the Python
`in` operator on strings). -/
def OccursIn (needle hay : List Char) : Prop :=
  ∃ pre post, hay = pre ++ needle ++ post

theorem leadsWith_iff (n : List Char) : ∀ h : List Char,
    leadsWith n h = true ↔ ∃ t, h = n ++ t := by
  induction n with
  | nil => intro h; simp [leadsWith]
  | cons a as ih =>
      intro h
      cases h with
      | nil => simp [leadsWith]
      | cons b bs =>
          simp only [leadsWith, Bool.and_eq_true, beq_iff_eq, ih]
          constructor
          · rintro ⟨rfl, t, rfl⟩
            exact ⟨t, rfl⟩
          · rintro ⟨t, ht⟩
            rw [List.cons_append] at ht
            injection ht with h1 h2
            exact ⟨h1.symm, t, h2⟩
  
theorem occursWithin_iff (n : List Char) : ∀ h : List Char,
    occursWithin n h = true ↔ OccursIn n h := by
  intro h
  induction h with
  | nil =>
      simp only [occursWithin, OccursIn, List.isEmpty_iff]
      constructor
      · rintro rfl
        exact ⟨[], [], rfl⟩
      · rintro ⟨pre, post, hp⟩
        have h2 := List.append_eq_nil.mp hp.symm
        exact (List.append_eq_nil.mp h2.1).2
  | cons c rest ih =>
      simp only [occursWithin, Bool.or_eq_true, leadsWith_iff, ih, OccursIn]
      constructor
      · rintro (⟨t, ht⟩ | ⟨pre, post, hp⟩)
        · exact ⟨[], t, ht⟩
        · exact ⟨c :: pre, post, by simp [hp]⟩
      · rintro ⟨pre, post, hp⟩
        cases pre with
        | nil => exact Or.inl ⟨post, hp⟩
        | cons p ps =>
            rw [List.cons_append, List.cons_append] at hp
            injection hp with h1 h2
            exact Or.inr ⟨ps, post, h2⟩

/-- Claim C9: the inbound classifier returns the new_pairs tag exactly when
"new_pairs" occurs within the first 50 characters of the lower-cased text,
else the update_pulse_v2 tag exactly when "update_pulse_v2" occurs there,
else nothing; and whenever it returns nothing the WebSocket hook leaves
the message unmodified. -/
theorem C9_room_classification (text : String) :
    (get_room_name defaultConfig text = some "new_pairs"
        ↔ OccursIn "new_pairs".toList (lower50 text))
    ∧ (get_room_name defaultConfig text = some "update_pulse_v2"
        ↔ (¬ OccursIn "new_pairs".toList (lower50 text)
            ∧ OccursIn "update_pulse_v2".toList (lower50 text)))
    ∧ (get_room_name defaultConfig text = none
        ↔ (¬ OccursIn "new_pairs".toList (lower50 text)
            ∧ ¬ OccursIn "update_pulse_v2".toList (lower50 text)))
    ∧ (∀ (cfg : FilterConfig) (m : WsMsgInput),
        get_room_name cfg m.text = none →
          websocket_message cfg m = WsOutcome.unchanged) := by
  have hgd : get_room_name defaultConfig text =
      (if occursWithin "new_pairs".toList (lower50 text) then some "new_pairs"
       else if occursWithin "update_pulse_v2".toList (lower50 text) then some "update_pulse_v2"
       else none) := rfl
  refine ⟨?_, ?_, ?_, ?_⟩
  · rw [hgd, ← occursWithin_iff]
    cases h1 : occursWithin "new_pairs".toList (lower50 text) <;>
      cases h2 : occursWithin "update_pulse_v2".toList (lower50 text) <;>
        simp
  · rw [hgd, ← occursWithin_iff, ← occursWithin_iff]
    cases h1 : occursWithin "new_pairs".toList (lower50 text) <;>
      cases h2 : occursWithin "update_pulse_v2".toList (lower50 text) <;>
        simp
  · rw [hgd, ← occursWithin_iff, ← occursWithin_iff]
    cases h1 : occursWithin "new_pairs".toList (lower50 text) <;>
      cases h2 : occursWithin "update_pulse_v2".toList (lower50 text) <;>
        simp
  · intro cfg m hnone
    unfold websocket_message
    rw [hnone]
    split
    · rfl
    · split
      · rfl
      · split
        · rfl
        · rfl

/-- The C9 witness message: a payload without either room tag. -/
def c9NoRoomMsg : WsMsgInput :=
  { isTargetHost := true
    hasMessages := true
    fromClient := false
    isText := true
    text := "hello"
    parsed := some (.obj []) }

/-- Witness for C9: a tagless payload is classified as nothing and the hook
leaves the message unmodified. -/
theorem C9_room_classification_witness :
    websocket_message defaultConfig c9NoRoomMsg = WsOutcome.unchanged :=
  (C9_room_classification "hello").2.2.2 defaultConfig c9NoRoomMsg (by rfl)

/-- Claim C10: under the default configuration, dev-address filtering is
disabled and funding-wallet filtering is enabled; the funder set is exactly
the three exchange addresses KuCoin, MEXC, Bybit (Binance is defined but
excluded); hence a record is kept exactly when it carries a present
dev_wallet_funding whose funding_wallet_address is one of those three
addresses (the shared evaluator `pulseKeepLogic` is applied to the decoded
fields of both record kinds). -/
theorem C10_default_config_semantics :
    defaultConfig.FILTER_BY_DEV_ADDRESS = false
    ∧ defaultConfig.FILTER_BY_FUNDING_WALLET = true
    ∧ (∀ s : String, s ∈ defaultConfig.FUNDER_ADDRESSES
        ↔ (s = defaultConfig.KUCOIN_ADDRESS ∨ s = defaultConfig.MEXC_ADDRESS
            ∨ s = defaultConfig.BYBIT_ADDRESS))
    ∧ defaultConfig.BINANCE_ADDRESS ∉ defaultConfig.FUNDER_ADDRESSES
    ∧ (∀ (devAddr : Val) (dwf : Option DevWalletFunding),
        pulseKeepLogic defaultConfig devAddr dwf = true
          ↔ ∃ f, dwf = some f
              ∧ (f.funding_wallet_address = Val.str defaultConfig.KUCOIN_ADDRESS
                  ∨ f.funding_wallet_address = Val.str defaultConfig.MEXC_ADDRESS
                  ∨ f.funding_wallet_address = Val.str defaultConfig.BYBIT_ADDRESS)) := by
  refine ⟨rfl, rfl, ?_, by decide, ?_⟩
  · intro s
    simp [defaultConfig]
  · intro devAddr dwf
    rw [pulseKeepLogic_iff]
    unfold KeepSpec ValMem
    cases dwf <;> simp [defaultConfig]
